import Mathlib

set_option maxHeartbeats 1000000

/-!
Formal model of `lunix-monitor.c`, an ncurses-based polling dashboard that
displays battery, temperature and light readings from a fixed bank of 16
sensors.  The file-descriptor world is modelled abstractly: an `Int` file
descriptor where a negative value means the open failed (the `-1` sentinel),
and a `ReadResult` describing what one `read(2)` call on a channel returned.
C strings are modelled as `List Char` holding the characters strictly before
the terminating NUL.
-/

/-- Sensor count, `#define MAX_SENSORS 16` (line 18 of the source). -/
def MAX_SENSORS : Nat := 16

/-- Value-buffer size, `#define BUF_SIZE 32` (line 19 of the source). -/
def BUF_SIZE : Nat := 32

/-- The NUL character that terminates C strings. -/
def NUL : Char := Char.ofNat 0

/-- Outcome of the non-blocking `read` call at line 52: `err` models a
negative return value (for instance EAGAIN), `ok data` models a return of
`data.length` bytes whose contents are `data` (so `ok []` is a zero-byte
read).  The kernel never returns more bytes than requested, so callers that
model line 52 faithfully assume `data.length ≤ BUF_SIZE - 1`. -/
inductive ReadResult where
  | err : ReadResult
  | ok : List Char → ReadResult
deriving DecidableEq

/-- Has this read produced no data (zero or negative byte count)? -/
def ReadResult.noData : ReadResult → Bool
  | ReadResult.err => true
  | ReadResult.ok data => data.isEmpty

/-- The C string left in `temp_buf` by lines 56–59: `temp_buf[bytes] = 0`
makes the string the delivered bytes up to the first NUL, and the
`strchr`/overwrite pair truncates it strictly before the first newline. -/
def cTrunc (data : List Char) : List Char :=
  (data.takeWhile (fun c => c ≠ NUL)).takeWhile (fun c => c ≠ '\n')

/-- `try_read` (lines 48–66).  Returns whether the buffer was updated paired
with the new buffer contents: a negative fd bails out at once, a read with
zero or negative byte count leaves the buffer alone, and a positive byte
count stores the newline-truncated text (the `strncpy` at line 62 copies the
whole string since its length is at most `BUF_SIZE - 1`). -/
def try_read (fd : Int) (buffer : List Char) (r : ReadResult) : Bool × List Char :=
  if fd < 0 then (false, buffer)
  else
    match r with
    | ReadResult.err => (false, buffer)
    | ReadResult.ok data =>
      if 0 < data.length then (true, cTrunc data)
      else (false, buffer)

/-- Repeated polls of one channel with a fixed fd, threading the buffer
through successive `try_read` calls. -/
def pollMany (fd : Int) (buffer : List Char) : List ReadResult → List Char
  | [] => buffer
  | r :: rs => pollMany fd (try_read fd buffer r).2 rs

/-- `struct sensor_data` (lines 23–30): three fds and three value buffers. -/
structure sensor_data where
  fd_batt : Int
  fd_temp : Int
  fd_light : Int
  val_batt : List Char
  val_temp : List Char
  val_light : List Char
deriving DecidableEq

/-- The three metrics, standing for the suffixes given to
`open_sensor_dev` at lines 97–99. -/
inductive Metric where
  | batt : Metric
  | temp : Metric
  | light : Metric
deriving DecidableEq

/-- The call `try_read(sensors[i].fd_batt, sensors[i].val_batt)` at
line 110: only the battery value buffer is written. -/
def pollChannelBatt (s : sensor_data) (r : ReadResult) : sensor_data :=
  { s with val_batt := (try_read s.fd_batt s.val_batt r).2 }

/-- The call `try_read(sensors[i].fd_temp, sensors[i].val_temp)` at
line 111: only the temperature value buffer is written. -/
def pollChannelTemp (s : sensor_data) (r : ReadResult) : sensor_data :=
  { s with val_temp := (try_read s.fd_temp s.val_temp r).2 }

/-- The call `try_read(sensors[i].fd_light, sensors[i].val_light)` at
line 112: only the light value buffer is written. -/
def pollChannelLight (s : sensor_data) (r : ReadResult) : sensor_data :=
  { s with val_light := (try_read s.fd_light s.val_light r).2 }

/-- One sensor's slice of the poll pass (lines 110–112): the three channel
reads in program order, given this cycle's read outcomes. -/
def pollSensor (s : sensor_data) (r : ReadResult × ReadResult × ReadResult) : sensor_data :=
  pollChannelLight (pollChannelTemp (pollChannelBatt s r.1) r.2.1) r.2.2

/-- One slot of the initialisation loop body (lines 91–100): empty value
strings and the three open attempts, where `openFd` abstracts
`open_sensor_dev` and a negative result marks an open failure. -/
def initSensor (openFd : Nat → Metric → Int) (i : Nat) : sensor_data :=
  { fd_batt := openFd i Metric.batt
    fd_temp := openFd i Metric.temp
    fd_light := openFd i Metric.light
    val_batt := []
    val_temp := []
    val_light := [] }

/-- The initialisation loop over all `MAX_SENSORS` slots (lines 91–100). -/
def initSensors (openFd : Nat → Metric → Int) : List sensor_data :=
  (List.range MAX_SENSORS).map (initSensor openFd)

/-- The offline test at line 143:
`sensors[i].fd_batt < 0 || sensors[i].val_batt[0] == '\0'`. -/
def statusOffline (s : sensor_data) : Bool :=
  decide (s.fd_batt < 0) || s.val_batt.isEmpty

/-- The fixed marker printed for offline rows at line 145. -/
def OFFLINE : List Char := "OFFLINE".data

/-- The three value columns of one table row (lines 143–154): the OFFLINE
marker three times when the row is offline, else the three cached values. -/
def renderRow (s : sensor_data) : List Char × List Char × List Char :=
  if statusOffline s then (OFFLINE, OFFLINE, OFFLINE)
  else (s.val_batt, s.val_temp, s.val_light)

/-- The row-drawing loop at lines 134–155 starting from index `i`: each row
carries its sensor id and its three value columns. -/
def renderRowsFrom : Nat → List sensor_data → List (Nat × (List Char × List Char × List Char))
  | _, [] => []
  | i, s :: rest => (i, renderRow s) :: renderRowsFrom (i + 1) rest

/-- One rendered frame: the row-drawing loop from index 0. -/
def renderFrame (sensors : List sensor_data) : List (Nat × (List Char × List Char × List Char)) :=
  renderRowsFrom 0 sensors

/-- Left-justified fixed-minimum-width field, the semantics of a `%-Ns`
printf conversion: pad with spaces on the right up to width `w`, and print
longer strings in full. -/
def padTo (w : Nat) (s : List Char) : List Char :=
  s ++ List.replicate (w - s.length) ' '

/-- The header line produced by the format string
`"%-8s  %-12s  %-12s  %-12s"` with arguments `ID`, `Battery(V)`, `Temp(C)`,
`Light` at line 130. -/
def headerLine : List Char :=
  padTo 8 "ID".data ++ [' ', ' '] ++ padTo 12 "Battery(V)".data ++ [' ', ' '] ++
    padTo 12 "Temp(C)".data ++ [' ', ' '] ++ padTo 12 "Light".data

/-- The value cells of one row produced by the format string
`"%-12s  %-12s  %-12s"` at lines 145 and 149. -/
def valueLine (a b c : List Char) : List Char :=
  padTo 12 a ++ [' ', ' '] ++ padTo 12 b ++ [' ', ' '] ++ padTo 12 c

/-- The poll pass over the sensor array (lines 109–113) starting from
index `i`, where `reads` gives each sensor's three read outcomes for this
cycle. -/
def pollAllFrom (reads : Nat → ReadResult × ReadResult × ReadResult) :
    Nat → List sensor_data → List sensor_data
  | _, [] => []
  | i, s :: rest => pollSensor s (reads i) :: pollAllFrom reads (i + 1) rest

/-- The full poll pass of one cycle, from index 0. -/
def pollAll (reads : Nat → ReadResult × ReadResult × ReadResult)
    (sensors : List sensor_data) : List sensor_data :=
  pollAllFrom reads 0 sensors

/-- What the environment feeds one loop cycle: the `getch()` result (line
105, `-1` meaning no key pending) and each sensor's three read outcomes. -/
structure CycleInput where
  key : Int
  reads : Nat → ReadResult × ReadResult × ReadResult

/-- The quit test at line 106: `ch == 'q' || ch == 'Q'`. -/
def isQuitKey (ch : Int) : Bool :=
  ch == (('q'.toNat : Nat) : Int) || ch == (('Q'.toNat : Nat) : Int)

/-- The main loop (lines 103–165) driven by a finite trace of cycle inputs.
Each cycle first checks the quit key, then polls every channel, then renders
a frame.  Returns the final sensor states, the frames rendered in order, and
whether the loop reached the Stopped state (the `break` at line 106); when
the input trace runs out the loop is still Running. -/
def runLoop : List sensor_data → List CycleInput → List sensor_data ×
    List (List (Nat × (List Char × List Char × List Char))) × Bool
  | sensors, [] => (sensors, [], false)
  | sensors, c :: rest =>
    if isQuitKey c.key then (sensors, [], true)
    else
      let polled := pollAll c.reads sensors
      let next := runLoop polled rest
      (next.1, renderFrame polled :: next.2.1, next.2.2)

/-- The close calls issued for one sensor by the cleanup loop (lines
168–172): each fd that is `>= 0` is closed, negative fds are skipped. -/
def closeChannels (s : sensor_data) : List Int :=
  (if 0 ≤ s.fd_batt then [s.fd_batt] else []) ++
    (if 0 ≤ s.fd_temp then [s.fd_temp] else []) ++
      (if 0 ≤ s.fd_light then [s.fd_light] else [])

/-- The close calls issued by the whole cleanup loop, in order. -/
def closeList : List sensor_data → List Int
  | [] => []
  | s :: rest => closeChannels s ++ closeList rest

/-- All fd fields of the sensor array, in order: three per sensor. -/
def fdTriples : List sensor_data → List Int
  | [] => []
  | s :: rest => s.fd_batt :: s.fd_temp :: s.fd_light :: fdTriples rest

/-- What a non-blocking read can deliver when line 52 requests at most
`BUF_SIZE - 1` bytes out of the `avail` bytes the device has pending: the
kernel caps the transfer at the requested count. -/
def readDeliverable (avail : List Char) : List Char :=
  avail.take (BUF_SIZE - 1)

/-- No value buffer of the sensor contains a newline character. -/
def noNewline (s : sensor_data) : Prop :=
  '\n' ∉ s.val_batt ∧ '\n' ∉ s.val_temp ∧ '\n' ∉ s.val_light

/-- Every value buffer of the sensor holds a string that fits the
`BUF_SIZE`-byte array together with its NUL terminator. -/
def bufInvariant (s : sensor_data) : Prop :=
  s.val_batt.length ≤ BUF_SIZE - 1 ∧ s.val_temp.length ≤ BUF_SIZE - 1 ∧
    s.val_light.length ≤ BUF_SIZE - 1

/-- A read outcome the kernel can actually produce for the request at line
52: delivered data never exceeds the requested `BUF_SIZE - 1` bytes. -/
def ReadResult.sizeOk : ReadResult → Prop
  | ReadResult.err => True
  | ReadResult.ok data => data.length ≤ BUF_SIZE - 1

/-- Every read outcome this cycle delivers fits the request at line 52. -/
def readsSizeOk (reads : Nat → ReadResult × ReadResult × ReadResult) : Prop :=
  ∀ i, (reads i).1.sizeOk ∧ (reads i).2.1.sizeOk ∧ (reads i).2.2.sizeOk

instance (s : sensor_data) : Decidable (noNewline s) :=
  inferInstanceAs (Decidable ('\n' ∉ s.val_batt ∧ '\n' ∉ s.val_temp ∧
    '\n' ∉ s.val_light))

instance (s : sensor_data) : Decidable (bufInvariant s) :=
  inferInstanceAs (Decidable (s.val_batt.length ≤ BUF_SIZE - 1 ∧
    s.val_temp.length ≤ BUF_SIZE - 1 ∧ s.val_light.length ≤ BUF_SIZE - 1))

instance (r : ReadResult) : Decidable r.sizeOk := by
  cases r with
  | err => exact isTrue trivial
  | ok data => exact inferInstanceAs (Decidable (data.length ≤ BUF_SIZE - 1))

/-! ### Helper lemmas about truncation -/

theorem takeWhile_take_length (p : Char → Bool) :
    ∀ l : List Char, l.take (l.takeWhile p).length = l.takeWhile p := by
  intro l
  induction l with
  | nil => rfl
  | cons a l ih =>
    by_cases h : p a
    · simp [List.takeWhile_cons, h, ih]
    · simp [List.takeWhile_cons, h]

theorem takeWhile_length_le (p : Char → Bool) :
    ∀ l : List Char, (l.takeWhile p).length ≤ l.length := by
  intro l
  induction l with
  | nil => exact Nat.le_refl 0
  | cons a l ih =>
    by_cases h : p a
    · simpa [List.takeWhile_cons, h] using ih
    · simp [List.takeWhile_cons, h]

theorem cTrunc_eq_takeWhile (data : List Char) :
    cTrunc data = data.takeWhile (fun c => c ≠ '\n' ∧ c ≠ NUL) := by
  simp [cTrunc, List.takeWhile_takeWhile]

theorem newline_not_mem_cTrunc (data : List Char) : '\n' ∉ cTrunc data := by
  intro h
  have := List.mem_takeWhile_imp h
  simp at this

theorem cTrunc_take (data : List Char) :
    data.take (cTrunc data).length = cTrunc data := by
  rw [cTrunc_eq_takeWhile]
  exact takeWhile_take_length _ data

theorem cTrunc_length_le (data : List Char) :
    (cTrunc data).length ≤ data.length := by
  rw [cTrunc_eq_takeWhile]
  exact takeWhile_length_le _ data

/-! ### Helper lemmas about `try_read` -/

theorem try_read_neg_fd (fd : Int) (buffer : List Char) (r : ReadResult)
    (h : fd < 0) : try_read fd buffer r = (false, buffer) := by
  simp [try_read, h]

theorem try_read_noData (fd : Int) (buffer : List Char) (r : ReadResult)
    (h : r.noData = true) : try_read fd buffer r = (false, buffer) := by
  cases r with
  | err => simp [try_read]
  | ok data =>
    simp [ReadResult.noData, List.isEmpty_iff] at h
    simp [try_read, h]

theorem try_read_ok (fd : Int) (buffer : List Char) (data : List Char)
    (hfd : 0 ≤ fd) (hd : 0 < data.length) :
    try_read fd buffer (ReadResult.ok data) = (true, cTrunc data) := by
  simp [try_read, Int.not_lt.mpr hfd, hd]

theorem try_read_no_newline (fd : Int) (buffer : List Char) (r : ReadResult)
    (h : '\n' ∉ buffer) : '\n' ∉ (try_read fd buffer r).2 := by
  by_cases hfd : fd < 0
  · simpa [try_read_neg_fd fd buffer r hfd] using h
  · cases r with
    | err => simpa [try_read] using h
    | ok data =>
      by_cases hd : 0 < data.length
      · rw [try_read_ok fd buffer data (Int.not_lt.mp hfd) hd]
        exact newline_not_mem_cTrunc data
      · simpa [try_read, hfd, hd] using h

theorem try_read_length_le (fd : Int) (buffer : List Char) (r : ReadResult)
    (hb : buffer.length ≤ BUF_SIZE - 1) (hr : r.sizeOk) :
    (try_read fd buffer r).2.length ≤ BUF_SIZE - 1 := by
  by_cases hfd : fd < 0
  · simpa [try_read_neg_fd fd buffer r hfd] using hb
  · cases r with
    | err => simpa [try_read] using hb
    | ok data =>
      by_cases hd : 0 < data.length
      · rw [try_read_ok fd buffer data (Int.not_lt.mp hfd) hd]
        exact Nat.le_trans (cTrunc_length_le data) hr
      · simpa [try_read, hfd, hd] using hb

/-! ### Helper lemmas about rendering -/

theorem renderRowsFrom_length :
    ∀ (l : List sensor_data) (i : Nat), (renderRowsFrom i l).length = l.length := by
  intro l
  induction l with
  | nil => intro i; rfl
  | cons s rest ih => intro i; simp [renderRowsFrom, ih]

theorem renderRowsFrom_map_fst :
    ∀ (l : List sensor_data) (i : Nat),
      (renderRowsFrom i l).map Prod.fst = List.range' i l.length := by
  intro l
  induction l with
  | nil => intro i; rfl
  | cons s rest ih =>
    intro i
    simp [renderRowsFrom, List.range'_succ, ih]

theorem renderRowsFrom_all_offline :
    ∀ (l : List sensor_data) (i : Nat), (∀ s ∈ l, statusOffline s = true) →
      renderRowsFrom i l =
        (List.range' i l.length).map (fun j => (j, (OFFLINE, OFFLINE, OFFLINE))) := by
  intro l
  induction l with
  | nil => intro i _; rfl
  | cons s rest ih =>
    intro i h
    have hs : statusOffline s = true := h s (List.mem_cons_self s rest)
    have hrest : ∀ t ∈ rest, statusOffline t = true :=
      fun t ht => h t (List.mem_cons_of_mem s ht)
    simp [renderRowsFrom, List.range'_succ, renderRow, hs, ih (i + 1) hrest]

theorem statusOffline_initSensor (openFd : Nat → Metric → Int) (i : Nat) :
    statusOffline (initSensor openFd i) = true := by
  simp [statusOffline, initSensor]

/-! ### Helper lemmas about the poll pass and the file descriptors -/

theorem pollSensor_fds (s : sensor_data) (r : ReadResult × ReadResult × ReadResult) :
    (pollSensor s r).fd_batt = s.fd_batt ∧ (pollSensor s r).fd_temp = s.fd_temp ∧
      (pollSensor s r).fd_light = s.fd_light := by
  exact ⟨rfl, rfl, rfl⟩

theorem fdTriples_pollAllFrom (reads : Nat → ReadResult × ReadResult × ReadResult) :
    ∀ (l : List sensor_data) (i : Nat), fdTriples (pollAllFrom reads i l) = fdTriples l := by
  intro l
  induction l with
  | nil => intro i; rfl
  | cons s rest ih =>
    intro i
    simp only [pollAllFrom, fdTriples, ih]
    rfl

theorem fdTriples_runLoop :
    ∀ (inputs : List CycleInput) (sensors : List sensor_data),
      fdTriples (runLoop sensors inputs).1 = fdTriples sensors := by
  intro inputs
  induction inputs with
  | nil => intro sensors; rfl
  | cons c rest ih =>
    intro sensors
    by_cases h : isQuitKey c.key
    · simp [runLoop, h]
    · simp [runLoop, h, ih, pollAll, fdTriples_pollAllFrom]

theorem closeList_eq_filter :
    ∀ l : List sensor_data,
      closeList l = (fdTriples l).filter (fun fd => decide (0 ≤ fd)) := by
  intro l
  induction l with
  | nil => rfl
  | cons s rest ih =>
    by_cases hb : 0 ≤ s.fd_batt <;> by_cases ht : 0 ≤ s.fd_temp <;>
      by_cases hl : 0 ≤ s.fd_light <;>
        simp [closeList, closeChannels, fdTriples, List.filter, hb, ht, hl, ih]

theorem pollAllFrom_getElem (reads : Nat → ReadResult × ReadResult × ReadResult) :
    ∀ (l : List sensor_data) (i j : Nat),
      (pollAllFrom reads i l)[j]? = l[j]?.map (fun s => pollSensor s (reads (i + j))) := by
  intro l
  induction l with
  | nil => intro i j; simp [pollAllFrom]
  | cons s rest ih =>
    intro i j
    cases j with
    | zero => simp [pollAllFrom]
    | succ j =>
      simp only [pollAllFrom, List.getElem?_cons_succ, ih (i + 1) j]
      have : i + 1 + j = i + (j + 1) := by omega
      rw [this]

/-! ### Helper lemmas about the newline and size invariants -/

theorem noNewline_pollSensor (s : sensor_data)
    (r : ReadResult × ReadResult × ReadResult) (h : noNewline s) :
    noNewline (pollSensor s r) := by
  obtain ⟨hb, ht, hl⟩ := h
  exact ⟨try_read_no_newline _ _ _ hb, try_read_no_newline _ _ _ ht,
    try_read_no_newline _ _ _ hl⟩

theorem noNewline_pollAllFrom (reads : Nat → ReadResult × ReadResult × ReadResult) :
    ∀ (l : List sensor_data) (i : Nat), (∀ s ∈ l, noNewline s) →
      ∀ s ∈ pollAllFrom reads i l, noNewline s := by
  intro l
  induction l with
  | nil => intro i _ s hs; simp [pollAllFrom] at hs
  | cons t rest ih =>
    intro i h s hs
    rcases List.mem_cons.mp hs with hs | hs
    · subst hs
      exact noNewline_pollSensor t (reads i) (h t (List.mem_cons_self t rest))
    · exact ih (i + 1) (fun u hu => h u (List.mem_cons_of_mem t hu)) s hs

theorem bufInvariant_pollSensor (s : sensor_data)
    (r : ReadResult × ReadResult × ReadResult)
    (hr : r.1.sizeOk ∧ r.2.1.sizeOk ∧ r.2.2.sizeOk) (h : bufInvariant s) :
    bufInvariant (pollSensor s r) := by
  obtain ⟨hb, ht, hl⟩ := h
  exact ⟨try_read_length_le _ _ _ hb hr.1, try_read_length_le _ _ _ ht hr.2.1,
    try_read_length_le _ _ _ hl hr.2.2⟩

theorem bufInvariant_pollAllFrom (reads : Nat → ReadResult × ReadResult × ReadResult)
    (hreads : readsSizeOk reads) :
    ∀ (l : List sensor_data) (i : Nat), (∀ s ∈ l, bufInvariant s) →
      ∀ s ∈ pollAllFrom reads i l, bufInvariant s := by
  intro l
  induction l with
  | nil => intro i _ s hs; simp [pollAllFrom] at hs
  | cons t rest ih =>
    intro i h s hs
    rcases List.mem_cons.mp hs with hs | hs
    · subst hs
      exact bufInvariant_pollSensor t (reads i) (hreads i) (h t (List.mem_cons_self t rest))
    · exact ih (i + 1) (fun u hu => h u (List.mem_cons_of_mem t hu)) s hs

theorem bufInvariant_runLoop :
    ∀ (inputs : List CycleInput) (sensors : List sensor_data),
      (∀ c ∈ inputs, readsSizeOk c.reads) → (∀ s ∈ sensors, bufInvariant s) →
      ∀ s ∈ (runLoop sensors inputs).1, bufInvariant s := by
  intro inputs
  induction inputs with
  | nil => intro sensors _ h; exact h
  | cons c rest ih =>
    intro sensors hin h
    by_cases hq : isQuitKey c.key
    · simpa [runLoop, hq] using h
    · have hc : readsSizeOk c.reads := hin c (List.mem_cons_self c rest)
      have hrest : ∀ d ∈ rest, readsSizeOk d.reads :=
        fun d hd => hin d (List.mem_cons_of_mem c hd)
      have hpoll : ∀ s ∈ pollAll c.reads sensors, bufInvariant s :=
        bufInvariant_pollAllFrom c.reads hc sensors 0 h
      simpa [runLoop, hq] using ih (pollAll c.reads sensors) hrest hpoll

theorem pollMany_unchanged (fd : Int) :
    ∀ (rs : List ReadResult) (buffer : List Char),
      (fd < 0 ∨ ∀ r ∈ rs, r.noData = true) → pollMany fd buffer rs = buffer := by
  intro rs
  induction rs with
  | nil => intro buffer _; rfl
  | cons r rs ih =>
    intro buffer h
    rcases h with h | h
    · calc pollMany fd buffer (r :: rs) = pollMany fd (try_read fd buffer r).2 rs := rfl
        _ = pollMany fd buffer rs := by rw [try_read_neg_fd fd buffer r h]
        _ = buffer := ih buffer (Or.inl h)
    · calc pollMany fd buffer (r :: rs) = pollMany fd (try_read fd buffer r).2 rs := rfl
        _ = pollMany fd buffer rs := by
            rw [try_read_noData fd buffer r (h r (List.mem_cons_self r rs))]
        _ = buffer := ih buffer (Or.inr fun t ht => h t (List.mem_cons_of_mem r ht))

/-! ### Claim theorems -/

/-- C1: a sensor row is Offline exactly when the battery fd is negative or
the cached battery value is the empty string; an Offline row renders the
fixed OFFLINE marker in all three value columns no matter what the
temperature and light channels hold, and an Online row renders the three
cached values. -/
theorem C1_offline_rendering :
    ∀ s : sensor_data,
      (statusOffline s = true ↔ (s.fd_batt < 0 ∨ s.val_batt = [])) ∧
      (statusOffline s = true → renderRow s = (OFFLINE, OFFLINE, OFFLINE)) ∧
      (statusOffline s = false →
        renderRow s = (s.val_batt, s.val_temp, s.val_light)) ∧
      (∀ (ft fl : Int) (vt vl : List Char),
        statusOffline (sensor_data.mk s.fd_batt ft fl s.val_batt vt vl) =
          statusOffline s) := by
  intro s
  refine ⟨?_, ?_, ?_, ?_⟩
  · simp [statusOffline, List.isEmpty_iff]
  · intro h; simp [renderRow, h]
  · intro h; simp [renderRow, h]
  · intro ft fl vt vl; rfl

theorem C1_offline_rendering_witness :
    statusOffline (sensor_data.mk (-1) 4 5 [] "22.5".data "77".data) = true ∧
    renderRow (sensor_data.mk (-1) 4 5 [] "22.5".data "77".data) =
      (OFFLINE, OFFLINE, OFFLINE) :=
  ⟨by decide,
   (C1_offline_rendering (sensor_data.mk (-1) 4 5 [] "22.5".data "77".data)).2.1
     (by decide)⟩

/-- C2: a successful read never stores a line-break: the cached value is
truncated strictly before the first newline (raw bytes `3.7\nstray` store
`3.7`), and a poll pass preserves the no-newline invariant of every
sensor. -/
theorem C2_no_linebreak_in_cache :
    (∀ (fd : Int) (buffer : List Char) (r : ReadResult),
        '\n' ∉ buffer → '\n' ∉ (try_read fd buffer r).2) ∧
    try_read 0 [] (ReadResult.ok "3.7\nstray".data) = (true, "3.7".data) ∧
    (∀ (reads : Nat → ReadResult × ReadResult × ReadResult)
        (l : List sensor_data) (i : Nat),
        (∀ s ∈ l, noNewline s) → ∀ s ∈ pollAllFrom reads i l, noNewline s) := by
  refine ⟨try_read_no_newline, by decide, noNewline_pollAllFrom⟩

theorem C2_no_linebreak_in_cache_witness :
    '\n' ∉ (try_read 0 "3.7".data (ReadResult.ok "3.7\nstray".data)).2 ∧
    noNewline (pollSensor (sensor_data.mk 0 (-1) (-1) [] [] [])
      (ReadResult.ok "3.7\nstray".data, ReadResult.err, ReadResult.err)) :=
  ⟨C2_no_linebreak_in_cache.1 0 "3.7".data (ReadResult.ok "3.7\nstray".data)
     (by decide),
   C2_no_linebreak_in_cache.2.2
     (fun _ => (ReadResult.ok "3.7\nstray".data, ReadResult.err, ReadResult.err))
     [sensor_data.mk 0 (-1) (-1) [] [] []] 0 (by decide)
     (pollSensor (sensor_data.mk 0 (-1) (-1) [] [] [])
       (ReadResult.ok "3.7\nstray".data, ReadResult.err, ReadResult.err))
     (by simp [pollAllFrom])⟩

/-- C3 counterexample: with the battery channel open (fd 0) a read of the
single byte `\n` is a successful reading — `try_read` reports an update —
yet the stored value is the empty string, so the derived status right after
that reading is Offline, refuting the claim that one successful battery
reading makes the status Online from then on. -/
theorem C3_counterexample :
    (try_read (0 : Int) ([] : List Char) (ReadResult.ok ['\n'])).1 = true ∧
    statusOffline (pollSensor (sensor_data.mk 0 (-1) (-1) [] [] [])
      (ReadResult.ok ['\n'], ReadResult.err, ReadResult.err)) = true := by
  decide

/-- C3 (amended): a sensor whose battery channel is open and whose cached
battery value is nonempty has status Online, regardless of the temperature
and light channels; a successful battery read whose payload is nonempty up
to the first line-break establishes this, and the status stays Online across
any poll whose battery read either yields no data or again stores a nonempty
value. -/
theorem C3_battery_online :
    ∀ (s : sensor_data) (r : ReadResult × ReadResult × ReadResult),
      (0 ≤ s.fd_batt → s.val_batt ≠ [] → statusOffline s = false) ∧
      (0 ≤ s.fd_batt → ∀ data, r.1 = ReadResult.ok data → cTrunc data ≠ [] →
        statusOffline (pollSensor s r) = false) ∧
      (statusOffline s = false →
        (∀ data, r.1 = ReadResult.ok data → 0 < data.length → cTrunc data ≠ []) →
        statusOffline (pollSensor s r) = false) ∧
      (∀ (ft fl : Int) (vt vl : List Char),
        statusOffline (sensor_data.mk s.fd_batt ft fl s.val_batt vt vl) =
          statusOffline s) := by
  intro s r
  refine ⟨?_, ?_, ?_, ?_⟩
  · intro h1 h2
    simp [statusOffline, Int.not_lt.mpr h1, List.isEmpty_iff, h2]
  · intro hfd data hr hne
    have hd : 0 < data.length := by
      cases data with
      | nil => simp [cTrunc] at hne
      | cons a l => simp
    have hval : (pollSensor s r).val_batt = cTrunc data := by
      show (try_read s.fd_batt s.val_batt r.1).2 = cTrunc data
      rw [hr, try_read_ok s.fd_batt s.val_batt data hfd hd]
    have hfd2 : (pollSensor s r).fd_batt = s.fd_batt := rfl
    simp [statusOffline, hval, hfd2, Int.not_lt.mpr hfd, List.isEmpty_iff, hne]
  · intro h hstore
    have hfd' : ¬ s.fd_batt < 0 := by
      intro hlt
      simp [statusOffline, hlt] at h
    have hval : s.val_batt ≠ [] := by
      intro he
      simp [statusOffline, he] at h
    have hnew : (pollSensor s r).val_batt ≠ [] := by
      show (try_read s.fd_batt s.val_batt r.1).2 ≠ []
      cases hr1 : r.1 with
      | err => simpa [try_read, hfd'] using hval
      | ok data =>
        by_cases hd : 0 < data.length
        · rw [try_read_ok s.fd_batt s.val_batt data (Int.not_lt.mp hfd') hd]
          exact hstore data hr1 hd
        · simpa [try_read, hfd', hd] using hval
    have hfd2 : (pollSensor s r).fd_batt = s.fd_batt := rfl
    simp [statusOffline, hfd2, hfd', List.isEmpty_iff, hnew]
  · intro ft fl vt vl; rfl

theorem C3_battery_online_witness :
    statusOffline (pollSensor (sensor_data.mk 0 (-1) (-1) [] [] [])
      (ReadResult.ok "3.7".data, ReadResult.err, ReadResult.err)) = false :=
  (C3_battery_online (sensor_data.mk 0 (-1) (-1) [] [] [])
      (ReadResult.ok "3.7".data, ReadResult.err, ReadResult.err)).2.1
    (by decide) "3.7".data rfl (by decide)

/-- C4: a poll on an unavailable handle (negative fd) returns false leaving
the buffer untouched, a poll whose read yields zero or negative bytes
returns false leaving the buffer untouched, and any sequence of such
no-data polls leaves the cached value exactly unchanged. -/
theorem C4_failed_poll_noop :
    (∀ (fd : Int) (buffer : List Char) (r : ReadResult),
        fd < 0 → try_read fd buffer r = (false, buffer)) ∧
    (∀ (fd : Int) (buffer : List Char) (r : ReadResult),
        r.noData = true → try_read fd buffer r = (false, buffer)) ∧
    (∀ (fd : Int) (buffer : List Char) (rs : List ReadResult),
        (fd < 0 ∨ ∀ r ∈ rs, r.noData = true) → pollMany fd buffer rs = buffer) := by
  exact ⟨try_read_neg_fd, try_read_noData,
    fun fd buffer rs h => pollMany_unchanged fd rs buffer h⟩

theorem C4_failed_poll_noop_witness :
    try_read (-1) "3.7".data (ReadResult.ok "9.9".data) = (false, "3.7".data) ∧
    try_read 0 "3.7".data (ReadResult.ok []) = (false, "3.7".data) ∧
    pollMany 0 "3.7".data [ReadResult.err, ReadResult.ok [], ReadResult.err] =
      "3.7".data :=
  ⟨C4_failed_poll_noop.1 (-1) "3.7".data (ReadResult.ok "9.9".data) (by decide),
   C4_failed_poll_noop.2.1 0 "3.7".data (ReadResult.ok []) (by decide),
   C4_failed_poll_noop.2.2 0 "3.7".data
     [ReadResult.err, ReadResult.ok [], ReadResult.err] (Or.inr (by decide))⟩

/-- C5: a quit keystroke stops the loop — the cycles after it contribute no
polls and no frames and the loop reports Stopped; with no quit keystroke the
loop never stops by itself, whatever the reads return; and cleanup closes
exactly the file descriptors that were opened successfully, once each, in
order, skipping unavailable handles. -/
theorem C5_quit_stops_loop :
    (∀ (sensors : List sensor_data) (pre post : List CycleInput) (q : CycleInput),
        (∀ c ∈ pre, isQuitKey c.key = false) → isQuitKey q.key = true →
        runLoop sensors (pre ++ q :: post) =
          ((runLoop sensors pre).1, (runLoop sensors pre).2.1, true)) ∧
    (∀ (sensors : List sensor_data) (inputs : List CycleInput),
        (∀ c ∈ inputs, isQuitKey c.key = false) →
        (runLoop sensors inputs).2.2 = false) ∧
    (∀ (sensors : List sensor_data) (inputs : List CycleInput),
        closeList (runLoop sensors inputs).1 =
          (fdTriples sensors).filter (fun fd => decide (0 ≤ fd))) := by
  refine ⟨?_, ?_, ?_⟩
  · intro sensors pre
    induction pre generalizing sensors with
    | nil =>
      intro post q _ hq
      simp [runLoop, hq]
    | cons c pre ih =>
      intro post q hpre hq
      have hc : isQuitKey c.key = false := hpre c (List.mem_cons_self c pre)
      have hpre' : ∀ d ∈ pre, isQuitKey d.key = false :=
        fun d hd => hpre d (List.mem_cons_of_mem c hd)
      simp [runLoop, hc, ih (pollAll c.reads sensors) post q hpre' hq]
  · intro sensors inputs
    induction inputs generalizing sensors with
    | nil => intro _; rfl
    | cons c rest ih =>
      intro h
      have hc : isQuitKey c.key = false := h c (List.mem_cons_self c rest)
      simp [runLoop, hc,
        ih (pollAll c.reads sensors) (fun d hd => h d (List.mem_cons_of_mem c hd))]
  · intro sensors inputs
    rw [closeList_eq_filter, fdTriples_runLoop]

theorem C5_quit_stops_loop_witness :
    runLoop []
        [CycleInput.mk 113 (fun _ => (ReadResult.err, ReadResult.err, ReadResult.err))] =
      ((runLoop [] []).1, (runLoop [] []).2.1, true) ∧
    (runLoop ([] : List sensor_data) []).2.2 = false ∧
    closeList (runLoop [sensor_data.mk 3 (-1) 7 [] [] []] []).1 =
      (fdTriples [sensor_data.mk 3 (-1) 7 [] [] []]).filter
        (fun fd => decide (0 ≤ fd)) :=
  ⟨C5_quit_stops_loop.1 [] [] []
     (CycleInput.mk 113 (fun _ => (ReadResult.err, ReadResult.err, ReadResult.err)))
     (fun c hc => absurd hc (List.not_mem_nil c)) (by decide),
   C5_quit_stops_loop.2.1 [] [] (fun c hc => absurd hc (List.not_mem_nil c)),
   C5_quit_stops_loop.2.2 [sensor_data.mk 3 (-1) 7 [] [] []] []⟩

/-- C6: with the configured count of 16, every frame over the freshly
initialised registry has exactly 16 rows carrying ids 0..15 in ascending
order, and when every open attempt failed every row shows the OFFLINE
marker in all three value columns. -/
theorem C6_registry_sixteen_rows :
    ∀ (openFd : Nat → Metric → Int),
      (renderFrame (initSensors openFd)).length = 16 ∧
      (renderFrame (initSensors openFd)).map Prod.fst = List.range 16 ∧
      ((∀ i m, openFd i m < 0) →
        renderFrame (initSensors openFd) =
          (List.range 16).map (fun j => (j, (OFFLINE, OFFLINE, OFFLINE)))) := by
  intro openFd
  have hlen : (initSensors openFd).length = 16 := by
    simp [initSensors, MAX_SENSORS]
  refine ⟨?_, ?_, ?_⟩
  · rw [renderFrame, renderRowsFrom_length, hlen]
  · rw [renderFrame, renderRowsFrom_map_fst, hlen, List.range_eq_range']
  · intro _
    have hoff : ∀ s ∈ initSensors openFd, statusOffline s = true := by
      intro s hs
      rcases List.mem_map.mp hs with ⟨i, _, rfl⟩
      exact statusOffline_initSensor openFd i
    rw [renderFrame, renderRowsFrom_all_offline (initSensors openFd) 0 hoff, hlen,
      List.range_eq_range']

theorem C6_registry_sixteen_rows_witness :
    (renderFrame (initSensors (fun _ _ => -1))).length = 16 ∧
    (renderFrame (initSensors (fun _ _ => -1))).map Prod.fst = List.range 16 ∧
    renderFrame (initSensors (fun _ _ => -1)) =
      (List.range 16).map (fun j => (j, (OFFLINE, OFFLINE, OFFLINE))) :=
  ⟨(C6_registry_sixteen_rows (fun _ _ => -1)).1,
   (C6_registry_sixteen_rows (fun _ _ => -1)).2.1,
   (C6_registry_sixteen_rows (fun _ _ => -1)).2.2 (fun i m => by decide)⟩

/-- C7: a successful read stores the delivered text truncated at the first
line-break, the stored value is an initial segment of the raw bytes (an
overlong payload is truncated, never rejected), it fits the fixed
`BUF_SIZE`-byte buffer the display renders from, and the read request at
line 52 can deliver at most `BUF_SIZE - 1` bytes. -/
theorem C7_successful_read_truncates :
    (∀ (fd : Int) (buffer data : List Char),
        0 ≤ fd → 0 < data.length →
        try_read fd buffer (ReadResult.ok data) = (true, cTrunc data) ∧
        data.take (cTrunc data).length = cTrunc data ∧
        (data.length ≤ BUF_SIZE - 1 → (cTrunc data).length ≤ BUF_SIZE - 1)) ∧
    (∀ avail : List Char, (readDeliverable avail).length ≤ BUF_SIZE - 1) := by
  refine ⟨?_, ?_⟩
  · intro fd buffer data hfd hd
    refine ⟨try_read_ok fd buffer data hfd hd, cTrunc_take data, ?_⟩
    intro h
    exact Nat.le_trans (cTrunc_length_le data) h
  · intro avail
    simp only [readDeliverable, List.length_take]
    omega

theorem C7_successful_read_truncates_witness :
    try_read 0 [] (ReadResult.ok "3.7\nstray".data) =
      (true, cTrunc "3.7\nstray".data) ∧
    ("3.7\nstray".data).take (cTrunc "3.7\nstray".data).length =
      cTrunc "3.7\nstray".data ∧
    (cTrunc "3.7\nstray".data).length ≤ BUF_SIZE - 1 :=
  have h := C7_successful_read_truncates.1 0 [] "3.7\nstray".data
    (by decide) (by decide)
  ⟨h.1, h.2.1, h.2.2 (by decide)⟩

/-- C8: the header uses the column labels ID, Battery(V), Temp(C) and Light
with a fixed 8-character id field and 12-character value fields, a value
field holds exactly 12 characters whenever the value fits, and the frame has
one row per sensor. -/
theorem C8_display_layout :
    headerLine = ("ID        Battery(V)    Temp(C)       Light       ").data ∧
    (padTo 8 "ID".data).length = 8 ∧
    (padTo 12 "Battery(V)".data).length = 12 ∧
    (padTo 12 "Temp(C)".data).length = 12 ∧
    (padTo 12 "Light".data).length = 12 ∧
    (∀ v : List Char, v.length ≤ 12 → (padTo 12 v).length = 12) ∧
    (∀ a b c : List Char, a.length ≤ 12 → b.length ≤ 12 → c.length ≤ 12 →
      (valueLine a b c).length = 40) ∧
    (∀ sensors : List sensor_data, (renderFrame sensors).length = sensors.length) := by
  refine ⟨by decide, by decide, by decide, by decide, by decide, ?_, ?_, ?_⟩
  · intro v h
    simp only [padTo, List.length_append, List.length_replicate]
    omega
  · intro a b c h1 h2 h3
    simp only [valueLine, padTo, List.length_append, List.length_replicate,
      List.length_cons, List.length_nil]
    omega
  · intro sensors
    rw [renderFrame, renderRowsFrom_length]

theorem C8_display_layout_witness :
    (padTo 12 "3.7".data).length = 12 ∧
    (valueLine "3.7".data "22.5".data "77".data).length = 40 ∧
    (renderFrame [sensor_data.mk 0 0 0 [] [] []]).length = 1 :=
  ⟨C8_display_layout.2.2.2.2.2.1 "3.7".data (by decide),
   C8_display_layout.2.2.2.2.2.2.1 "3.7".data "22.5".data "77".data
     (by decide) (by decide) (by decide),
   C8_display_layout.2.2.2.2.2.2.2 [sensor_data.mk 0 0 0 [] [] []]⟩

/-- C9: each per-channel read call mutates at most its own cached value —
all fd fields and the other two value buffers are unchanged — and the poll
pass maps each sensor slot independently, so slot j of the polled array is
exactly the poll of slot j of the input array. -/
theorem C9_poll_frame_effect :
    (∀ (s : sensor_data) (r : ReadResult),
        (pollChannelBatt s r).fd_batt = s.fd_batt ∧
        (pollChannelBatt s r).fd_temp = s.fd_temp ∧
        (pollChannelBatt s r).fd_light = s.fd_light ∧
        (pollChannelBatt s r).val_temp = s.val_temp ∧
        (pollChannelBatt s r).val_light = s.val_light) ∧
    (∀ (s : sensor_data) (r : ReadResult),
        (pollChannelTemp s r).fd_batt = s.fd_batt ∧
        (pollChannelTemp s r).fd_temp = s.fd_temp ∧
        (pollChannelTemp s r).fd_light = s.fd_light ∧
        (pollChannelTemp s r).val_batt = s.val_batt ∧
        (pollChannelTemp s r).val_light = s.val_light) ∧
    (∀ (s : sensor_data) (r : ReadResult),
        (pollChannelLight s r).fd_batt = s.fd_batt ∧
        (pollChannelLight s r).fd_temp = s.fd_temp ∧
        (pollChannelLight s r).fd_light = s.fd_light ∧
        (pollChannelLight s r).val_batt = s.val_batt ∧
        (pollChannelLight s r).val_temp = s.val_temp) ∧
    (∀ (reads : Nat → ReadResult × ReadResult × ReadResult)
        (l : List sensor_data) (i j : Nat),
        (pollAllFrom reads i l)[j]? =
          l[j]?.map (fun s => pollSensor s (reads (i + j)))) := by
  exact ⟨fun s r => ⟨rfl, rfl, rfl, rfl, rfl⟩,
    fun s r => ⟨rfl, rfl, rfl, rfl, rfl⟩,
    fun s r => ⟨rfl, rfl, rfl, rfl, rfl⟩,
    pollAllFrom_getElem⟩

/-- C10: after initialisation every value buffer is the empty string, the
read never delivers more than `BUF_SIZE - 1` bytes, a `try_read` on a
bounded buffer with a deliverable payload leaves a string of length at most
`BUF_SIZE - 1` (so the NUL terminator at index bytes stays inside the
`BUF_SIZE`-byte array), and the bound is preserved by every poll pass and by
the whole loop. -/
theorem C10_buffer_bounds :
    (∀ (openFd : Nat → Metric → Int), ∀ s ∈ initSensors openFd, bufInvariant s) ∧
    (∀ avail : List Char, (readDeliverable avail).length ≤ BUF_SIZE - 1) ∧
    (∀ (fd : Int) (buffer : List Char) (r : ReadResult),
        buffer.length ≤ BUF_SIZE - 1 → r.sizeOk →
        (try_read fd buffer r).2.length ≤ BUF_SIZE - 1) ∧
    (∀ (reads : Nat → ReadResult × ReadResult × ReadResult)
        (l : List sensor_data) (i : Nat), readsSizeOk reads →
        (∀ s ∈ l, bufInvariant s) → ∀ s ∈ pollAllFrom reads i l, bufInvariant s) ∧
    (∀ (sensors : List sensor_data) (inputs : List CycleInput),
        (∀ c ∈ inputs, readsSizeOk c.reads) → (∀ s ∈ sensors, bufInvariant s) →
        ∀ s ∈ (runLoop sensors inputs).1, bufInvariant s) := by
  refine ⟨?_, ?_, try_read_length_le, ?_, ?_⟩
  · intro openFd s hs
    rcases List.mem_map.mp hs with ⟨i, _, rfl⟩
    exact ⟨Nat.zero_le _, Nat.zero_le _, Nat.zero_le _⟩
  · intro avail
    simp only [readDeliverable, List.length_take]
    omega
  · intro reads l i hr h
    exact bufInvariant_pollAllFrom reads hr l i h
  · intro sensors inputs hin h
    exact bufInvariant_runLoop inputs sensors hin h

theorem C10_buffer_bounds_witness :
    bufInvariant (initSensor (fun _ _ => -1) 0) ∧
    (readDeliverable "3.7".data).length ≤ BUF_SIZE - 1 ∧
    (try_read 0 "3.7".data (ReadResult.ok "9.99".data)).2.length ≤ BUF_SIZE - 1 ∧
    bufInvariant (pollSensor (sensor_data.mk 0 0 0 [] [] [])
      (ReadResult.ok "9.99".data, ReadResult.err, ReadResult.err)) ∧
    bufInvariant (pollSensor (sensor_data.mk 0 0 0 [] [] [])
      (ReadResult.ok "8.88".data, ReadResult.err, ReadResult.err)) :=
  ⟨C10_buffer_bounds.1 (fun _ _ => -1) (initSensor (fun _ _ => -1) 0) (by decide),
   C10_buffer_bounds.2.1 "3.7".data,
   C10_buffer_bounds.2.2.1 0 "3.7".data (ReadResult.ok "9.99".data)
     (by decide) (by decide),
   C10_buffer_bounds.2.2.2.1
     (fun _ => (ReadResult.ok "9.99".data, ReadResult.err, ReadResult.err))
     [sensor_data.mk 0 0 0 [] [] []] 0
     (fun i => ⟨(by decide : ("9.99".data).length ≤ BUF_SIZE - 1), trivial, trivial⟩)
     (by decide)
     (pollSensor (sensor_data.mk 0 0 0 [] [] [])
       (ReadResult.ok "9.99".data, ReadResult.err, ReadResult.err))
     (by simp [pollAllFrom])
   ,
   C10_buffer_bounds.2.2.2.2
     [sensor_data.mk 0 0 0 [] [] []]
     [CycleInput.mk (-1) (fun _ => (ReadResult.ok "8.88".data, ReadResult.err, ReadResult.err))]
     (fun c hc => by
       rcases List.mem_singleton.mp hc with rfl
       exact fun i => ⟨(by decide : ("8.88".data).length ≤ BUF_SIZE - 1), trivial,
         trivial⟩)
     (by decide)
     (pollSensor (sensor_data.mk 0 0 0 [] [] [])
       (ReadResult.ok "8.88".data, ReadResult.err, ReadResult.err))
     (by simp [runLoop, isQuitKey, pollAll, pollAllFrom])⟩
